import Mathlib

/-!
Verification of the chunked de-identification-and-reload workflow in
`src/main.py` (`deidentify_table_replace_with_info_types` and `main`).

The script queries a source table into a constant staging table, streams the
rows back, builds a DLP tabular payload, sends one synchronous
`deidentify_content` request, then loads the response back into the output
table in fixed-size chunks.  The definitions below are a shallow embedding of
that control flow: remote services appear as function parameters, and the
externally visible actions are recorded in an event trace.
-/

namespace DataMaskingDlp

/-- A cell value read back from the warehouse staging table (`row` iteration
in `bq_client.list_rows`).  Cells may be strings, integers or NULL. -/
inductive Cell where
  | str (s : String)
  | int (n : Int)
  | null
deriving DecidableEq

/-- Python `str(cell_val)` as applied on line 82 of `src/main.py`. -/
def pyStr : Cell → String
  | .str s => s
  | .int n => toString n
  | .null => "None"

/-- The DLP `ContentItem` table: ordered headers and ordered rows of string
cell values (the wire representation, lines 78-85). -/
structure DlpTable where
  headers : List String
  rows : List (List String)
deriving DecidableEq

/-- Lines 78-85: headers are the staging table schema column names in schema
order; each row becomes the list of its cells' string representations. -/
def buildPayload (schema : List String) (srcRows : List (List Cell)) : DlpTable :=
  { headers := schema
    rows := srcRows.map (fun r => r.map pyStr) }

/-- Line 62: the staging table identifier is a fixed literal, independent of
the CLI parameters. -/
def table_id : String := "project_id.dataset_id.table_id"

/-- Line 128: the deidentify template name placed in the request. -/
def template_name : String :=
  "projects/project_id/locations/global/deidentifyTemplates/template_id"

/-- One entry of `record_transformations.field_transformations`
(lines 99-115): a replace-config new value and the list of fields. -/
structure FieldTransformation where
  replace_new_value : String
  fields : List String
deriving DecidableEq

/-- The `deidentify_config` dictionary shape: either a named template
reference, inline field transformations, or (in principle) both. -/
structure DeidConfig where
  deidentify_template_name : Option String
  field_transformations : Option (List FieldTransformation)
deriving DecidableEq

/-- Lines 97-118: the local `deidentify_config` variable — inline
record transformations replacing detected spans with the fixed placeholder
`"################"` on the selected fields, and no template name. -/
def deidentify_config (deidFields : List String) : DeidConfig :=
  { deidentify_template_name := none
    field_transformations :=
      some [{ replace_new_value := "################", fields := deidFields }] }

/-- The `deidentify_content` request dictionary (lines 124-133). -/
structure DlpRequest where
  parent : String
  deid_config : DeidConfig
  item : DlpTable
  inspect_info_types : List String
deriving DecidableEq

/-- Lines 120-133: the request as constructed.  Its `deidentify_config` entry
is the literal `{"deidentify_template_name": ...}` dictionary — the local
`deidentify_config` variable of lines 97-118 is not referenced. -/
def buildRequest (project : String) (infoTypes : List String)
    (item : DlpTable) : DlpRequest :=
  { parent := "projects/" ++ project ++ "/locations/global"
    deid_config := { deidentify_template_name := some template_name
                     field_transformations := none }
    item := item
    inspect_info_types := infoTypes }

/-- Value of a digit list, most significant first. -/
def digitsVal (cs : List Char) : Nat :=
  cs.foldl (fun a c => a * 10 + (c.toNat - 48)) 0

/-- Python `int(s)` on a string (line 140): strip surrounding whitespace,
allow one optional sign, then a nonempty run of digits; anything else raises
`ValueError`, modelled as `none`. -/
def pythonInt (s : String) : Option Int :=
  let cs := (s.toList.dropWhile Char.isWhitespace).reverse.dropWhile
      Char.isWhitespace |>.reverse
  match cs with
  | '-' :: rest =>
      if rest ≠ [] ∧ rest.all Char.isDigit then some (-(digitsVal rest : Int))
      else none
  | '+' :: rest =>
      if rest ≠ [] ∧ rest.all Char.isDigit then some (digitsVal rest : Int)
      else none
  | _ =>
      if cs ≠ [] ∧ cs.all Char.isDigit then some (digitsVal cs : Int)
      else none

/-- Clamp a Python slice index to `[0, len]` (negative indices count from the
end). -/
def pyIndexClamp (len : Nat) (i : Int) : Nat :=
  if i < 0 then (i + len).toNat else min i.toNat len

/-- Python `l[start:stop]` for a list (line 146). -/
def pySlice {α : Type} (l : List α) (start stop : Int) : List α :=
  let s := pyIndexClamp l.length start
  let t := pyIndexClamp l.length stop
  (l.drop s).take (t - s)

/-- Lines 143-155: the pandas frame built for chunk `i` — columns are the
response header names by position, data is the slice
`rows[i*chunk_size : i*chunk_size + chunk_size]` (the `deid_data`
accumulator is reset after every load, so each frame holds exactly its own
chunk's rows). -/
structure Frame where
  columns : List String
  data : List (List String)
deriving DecidableEq

/-- The frame for chunk `i` of the response, per lines 144-155. -/
def chunkFrame (resp : DlpTable) (cs : Int) (i : Nat) : Frame :=
  { columns := resp.headers
    data := pySlice resp.rows (i * cs) (i * cs + cs) }

/-- Line 141 and 143: the loop runs `range(num_chunks + 1)` iterations where
`num_chunks = len(rows) // chunk_size` (Python floor division); a negative
bound yields an empty range. -/
def numIterations (nrows : Nat) (cs : Int) : Nat :=
  (Int.fdiv nrows cs + 1).toNat

/-- Line 157: destination table identifier for the chunk loads. -/
def outputTableId (project dataset output_table : String) : String :=
  project ++ "." ++ dataset ++ "." ++ output_table

/-- Externally visible actions of one run, in program order. -/
inductive Event where
  | queryJob (dest : String)
  | listRows (tid : String)
  | redactCall
  | loadStart (i : Nat) (tid : String)
  | loadComplete (i : Nat)
deriving DecidableEq

/-- Events before the chunk loop: the staging query (destination is the
constant `table_id`), the row read-back from the same constant, and the
single synchronous DLP call. -/
def preTrace : List Event :=
  [Event.queryJob table_id, Event.listRows table_id, Event.redactCall]

/-- Events of the chunk loop: iteration `i` starts load job `i` and then
blocks on `job.result()` before iteration `i+1` begins (lines 159-164). -/
def loadTrace (tid : String) : Nat → List Event
  | 0 => []
  | k + 1 => loadTrace tid k ++ [Event.loadStart k tid, Event.loadComplete k]

/-- Number of load operations recorded in a trace. -/
def countLoads (t : List Event) : Nat :=
  t.countP fun e =>
    match e with
    | Event.loadStart _ _ => true
    | _ => false

/-- The CLI arguments of `main` (lines 172-186): exactly five flags, all
strings; there is no flag for info types or for the field selection. -/
structure Args where
  project : String
  dataset : String
  input_table : String
  output_table : String
  chunksize : String
deriving DecidableEq

/-- Result of one run: the event trace, the destination table content, and
the outcome (`ok` or the propagated failure). -/
structure PipeResult where
  trace : List Event
  dest : List (List String)
  outcome : Except String Unit

/-- The body of `deidentify_table_replace_with_info_types` (lines 52-168).
`redact` stands for `dlp.deidentify_content`; `initialDest` is the
destination table's content before the run.  Control flow follows the
source: query → read back → build payload → one DLP call → parse
`chunksize` (`int(...)`, may raise) → `num_chunks = N // chunk_size` (raises
on zero) → sequential chunk loads, each appending its frame's rows
(the `LoadJobConfig` with `WRITE_TRUNCATE` is constructed on line 158 but
commented out of the `load_table_from_dataframe` call, so every load uses
the default append disposition). -/
def runPipeline (args : Args) (schema : List String)
    (srcRows : List (List Cell)) (infoTypes : List String)
    (redact : DlpRequest → Except String DlpTable)
    (initialDest : List (List String)) : PipeResult :=
  match redact (buildRequest args.project infoTypes (buildPayload schema srcRows)) with
  | .error e => ⟨preTrace, initialDest, .error e⟩
  | .ok resp =>
    match pythonInt args.chunksize with
    | none => ⟨preTrace, initialDest, .error "ValueError"⟩
    | some cs =>
      if cs = 0 then ⟨preTrace, initialDest, .error "ZeroDivisionError"⟩
      else
        ⟨preTrace ++ loadTrace (outputTableId args.project args.dataset args.output_table)
            (numIterations resp.rows.length cs),
         ((List.range (numIterations resp.rows.length cs)).map
             (fun i => chunkFrame resp cs i)).foldl (fun d f => d ++ f.data) initialDest,
         .ok ()⟩

/-- The fixed detector category list hard-coded in `main`
(lines 195-317 of `src/main.py`). -/
def info_types_const : List String :=
  ["ARGENTINA_DNI_NUMBER",
   "AUSTRALIA_DRIVERS_LICENSE_NUMBER",
   "AUSTRALIA_MEDICARE_NUMBER",
   "AUSTRALIA_PASSPORT",
   "AUSTRALIA_TAX_FILE_NUMBER",
   "AUTH_TOKEN",
   "AWS_CREDENTIALS",
   "AZERBAIJAN_PASSPORT",
   "AZURE_AUTH_TOKEN",
   "BELARUS_PASSPORT",
   "BELGIUM_NATIONAL_ID_CARD_NUMBER",
   "BRAZIL_CPF_NUMBER",
   "CANADA_BANK_ACCOUNT",
   "CANADA_BC_PHN",
   "CANADA_DRIVERS_LICENSE_NUMBER",
   "CANADA_OHIP",
   "CANADA_PASSPORT",
   "CANADA_QUEBEC_HIN",
   "CANADA_SOCIAL_INSURANCE_NUMBER",
   "CHILE_CDI_NUMBER",
   "CHINA_PASSPORT",
   "CHINA_RESIDENT_ID_NUMBER",
   "COLOMBIA_CDC_NUMBER",
   "CREDIT_CARD_NUMBER",
   "CREDIT_CARD_TRACK_NUMBER",
   "CROATIA_PERSONAL_ID_NUMBER",
   "DENMARK_CPR_NUMBER",
   "ENCRYPTION_KEY",
   "FINANCIAL_ACCOUNT_NUMBER",
   "FINLAND_NATIONAL_ID_NUMBER",
   "FRANCE_CNI",
   "FRANCE_NIR",
   "FRANCE_PASSPORT",
   "FRANCE_TAX_IDENTIFICATION_NUMBER",
   "GCP_API_KEY",
   "GCP_CREDENTIALS",
   "GERMANY_DRIVERS_LICENSE_NUMBER",
   "GERMANY_IDENTITY_CARD_NUMBER",
   "GERMANY_PASSPORT",
   "GERMANY_SCHUFA_ID",
   "GERMANY_TAXPAYER_IDENTIFICATION_NUMBER",
   "HONG_KONG_ID_NUMBER",
   "ICCID_NUMBER",
   "IMEI_HARDWARE_ID",
   "IMSI_ID",
   "INDIA_AADHAAR_INDIVIDUAL",
   "INDIA_GST_INDIVIDUAL",
   "INDIA_PAN_INDIVIDUAL",
   "INDIA_PASSPORT",
   "INDONESIA_NIK_NUMBER",
   "IRELAND_DRIVING_LICENSE_NUMBER",
   "IRELAND_EIRCODE",
   "IRELAND_PASSPORT",
   "IRELAND_PPSN",
   "ISRAEL_IDENTITY_CARD_NUMBER",
   "ITALY_FISCAL_CODE",
   "JAPAN_BANK_ACCOUNT",
   "JAPAN_DRIVERS_LICENSE_NUMBER",
   "JAPAN_INDIVIDUAL_NUMBER",
   "JAPAN_PASSPORT",
   "KAZAKHSTAN_PASSPORT",
   "KOREA_PASSPORT",
   "KOREA_RRN",
   "MEXICO_CURP_NUMBER",
   "MEXICO_PASSPORT",
   "NETHERLANDS_BSN_NUMBER",
   "NETHERLANDS_PASSPORT",
   "NEW_ZEALAND_IRD_NUMBER",
   "NORWAY_NI_NUMBER",
   "OAUTH_CLIENT_SECRET",
   "PARAGUAY_CIC_NUMBER",
   "PASSPORT",
   "PASSWORD",
   "PERU_DNI_NUMBER",
   "POLAND_NATIONAL_ID_NUMBER",
   "POLAND_PASSPORT",
   "POLAND_PESEL_NUMBER",
   "PORTUGAL_CDC_NUMBER",
   "PORTUGAL_SOCIAL_SECURITY_NUMBER",
   "RUSSIA_PASSPORT",
   "SCOTLAND_COMMUNITY_HEALTH_INDEX_NUMBER",
   "SINGAPORE_NATIONAL_REGISTRATION_ID_NUMBER",
   "SINGAPORE_PASSPORT",
   "SOUTH_AFRICA_ID_NUMBER",
   "SPAIN_CIF_NUMBER",
   "SPAIN_DNI_NUMBER",
   "SPAIN_DRIVERS_LICENSE_NUMBER",
   "SPAIN_NIE_NUMBER",
   "SPAIN_NIF_NUMBER",
   "SPAIN_PASSPORT",
   "SPAIN_SOCIAL_SECURITY_NUMBER",
   "SSL_CERTIFICATE",
   "STORAGE_SIGNED_POLICY_DOCUMENT",
   "STORAGE_SIGNED_URL",
   "SWEDEN_NATIONAL_ID_NUMBER",
   "SWEDEN_PASSPORT",
   "SWITZERLAND_SOCIAL_SECURITY_NUMBER",
   "TAIWAN_PASSPORT",
   "THAILAND_NATIONAL_ID_NUMBER",
   "TURKEY_ID_NUMBER",
   "UK_DRIVERS_LICENSE_NUMBER",
   "UK_ELECTORAL_ROLL_NUMBER",
   "UK_NATIONAL_HEALTH_SERVICE_NUMBER",
   "UK_NATIONAL_INSURANCE_NUMBER",
   "UK_PASSPORT",
   "UK_TAXPAYER_REFERENCE",
   "UKRAINE_PASSPORT",
   "URUGUAY_CDI_NUMBER",
   "US_ADOPTION_TAXPAYER_IDENTIFICATION_NUMBER",
   "US_DEA_NUMBER",
   "US_DRIVERS_LICENSE_NUMBER",
   "US_EMPLOYER_IDENTIFICATION_NUMBER",
   "US_INDIVIDUAL_TAXPAYER_IDENTIFICATION_NUMBER",
   "US_MEDICARE_BENEFICIARY_ID_NUMBER",
   "US_PASSPORT",
   "US_PREPARER_TAXPAYER_IDENTIFICATION_NUMBER",
   "US_SOCIAL_SECURITY_NUMBER",
   "UZBEKISTAN_PASSPORT",
   "VEHICLE_IDENTIFICATION_NUMBER",
   "VENEZUELA_CDI_NUMBER",
   "WEAK_PASSWORD_HASH"]

/-- The fixed field-selection list hard-coded in `main` (lines 319-324). -/
def deid_fields_const : List String :=
  ["column_1", "column_2", "column_3", "column_4"]

/-- The arguments `main` hands to the orchestrator (lines 189-325): the five
parsed flags plus the two hard-coded lists. -/
structure OrchestratorCall where
  project : String
  dataset : String
  input_table : String
  output_table : String
  chunksize : String
  info_types : List String
  deid_content_list : List String
deriving DecidableEq

/-- `main` (lines 171-325): forwards the five flags and attaches the two
constant lists. -/
def mainCall (a : Args) : OrchestratorCall :=
  { project := a.project
    dataset := a.dataset
    input_table := a.input_table
    output_table := a.output_table
    chunksize := a.chunksize
    info_types := info_types_const
    deid_content_list := deid_fields_const }

/-! ## Helper lemmas -/

/-- Unfolding of the chunk loop trace at a successor iteration count. -/
theorem loadTrace_succ (tid : String) (k : Nat) :
    loadTrace tid (k + 1)
      = loadTrace tid k ++ [Event.loadStart k tid, Event.loadComplete k] := rfl

/-- The chunk loop trace has two events per iteration. -/
theorem loadTrace_length (tid : String) (k : Nat) :
    (loadTrace tid k).length = 2 * k := by
  induction k with
  | zero => rfl
  | succ n ih =>
    rw [loadTrace_succ, List.length_append, ih]
    simp only [List.length_cons, List.length_nil]
    omega

/-- Positions of the load events in the chunk loop trace: iteration `i`
contributes the start event at position `2*i` and the completion event
immediately after it. -/
theorem loadTrace_getElem (tid : String) {k i : Nat} (h : i < k) :
    (loadTrace tid k)[2 * i]? = some (Event.loadStart i tid)
    ∧ (loadTrace tid k)[2 * i + 1]? = some (Event.loadComplete i) := by
  induction k with
  | zero => exact absurd h (Nat.not_lt_zero i)
  | succ n ih =>
    have hlen : (loadTrace tid n).length = 2 * n := loadTrace_length tid n
    rcases Nat.lt_succ_iff_lt_or_eq.mp h with h' | h'
    · have hlt : 2 * i < (loadTrace tid n).length := by omega
      have hlt1 : 2 * i + 1 < (loadTrace tid n).length := by omega
      constructor
      · rw [loadTrace_succ, List.getElem?_append_left hlt]
        exact (ih h').1
      · rw [loadTrace_succ, List.getElem?_append_left hlt1]
        exact (ih h').2
    · subst h'
      have hle : (loadTrace tid i).length ≤ 2 * i := by omega
      have hle1 : (loadTrace tid i).length ≤ 2 * i + 1 := by omega
      constructor
      · rw [loadTrace_succ, List.getElem?_append_right hle, hlen]
        simp
      · rw [loadTrace_succ, List.getElem?_append_right hle1, hlen]
        simp

/-- Reduction of `runPipeline` on the success path: the redaction call
returns, `chunksize` parses, and the parsed value is nonzero. -/
theorem runPipeline_ok (args : Args) (schema : List String)
    (srcRows : List (List Cell)) (infoTypes : List String)
    (redact : DlpRequest → Except String DlpTable)
    (initialDest : List (List String)) (resp : DlpTable) (cs : Int)
    (hr : redact (buildRequest args.project infoTypes (buildPayload schema srcRows))
        = Except.ok resp)
    (hp : pythonInt args.chunksize = some cs) (hcs : cs ≠ 0) :
    runPipeline args schema srcRows infoTypes redact initialDest =
      ⟨preTrace ++ loadTrace (outputTableId args.project args.dataset args.output_table)
          (numIterations resp.rows.length cs),
       ((List.range (numIterations resp.rows.length cs)).map
           (fun i => chunkFrame resp cs i)).foldl (fun d f => d ++ f.data) initialDest,
       Except.ok ()⟩ := by
  unfold runPipeline
  rw [hr, hp]
  simp [hcs]

/-! ## Claim theorems -/

/-- C1: the claim says the reassemble-and-load loop performs `ceil(N / C)`
chunk loads.  The code runs `range(N // C + 1)` iterations and loads on every
iteration: for `N = 2` redacted rows and chunk size `C = 1` it performs 3
loads, while `ceil(2 / 1) = 2`.  (For `N = 0` it performs 1 load instead of
0.) -/
theorem C1_chunk_load_count_off_by_one :
    countLoads (runPipeline ⟨"p", "d", "src", "out", "1"⟩ ["h"]
        [[Cell.str "a"], [Cell.str "b"]] ["PHONE_NUMBER"]
        (fun r => Except.ok r.item) []).trace = 3
    ∧ (2 + 1 - 1) / 1 = 2
    ∧ countLoads (runPipeline ⟨"p", "d", "src", "out", "1"⟩ ["h"] []
        ["PHONE_NUMBER"] (fun r => Except.ok r.item) []).trace = 1 :=
  ⟨by decide, by decide, by decide⟩

/-- C2: the claim says a full successful run leaves the destination with
exactly `N` rows via truncate-once-then-append.  The `WRITE_TRUNCATE` load
job config is constructed but commented out of the load call, so every chunk
is appended with the default disposition: a destination that already holds
one row ends with `initial + N = 2` rows for `N = 1`, not `N = 1`.  (Each
redacted row is still loaded exactly once — the count is `initial + N`, never
`N × chunks`.) -/
theorem C2_append_only_never_truncates :
    (runPipeline ⟨"p", "d", "src", "out", "1"⟩ ["h"] [[Cell.str "a"]]
        ["PHONE_NUMBER"] (fun r => Except.ok r.item) [["old"]]).dest
      = [["old"], ["a"]]
    ∧ (runPipeline ⟨"p", "d", "src", "out", "1"⟩ ["h"]
        [[Cell.str "a"], [Cell.str "b"]] ["PHONE_NUMBER"]
        (fun r => Except.ok r.item) []).dest = [["a"], ["b"]] :=
  ⟨by decide, by decide⟩

/-- C6 counterexample: the claim says the request as constructed supplies
both an inline transformation configuration and a named template reference.
In fact the request's `deidentify_config` entry carries only the template
name; its `field_transformations` component is absent (the inline
configuration built on lines 97-118 is never referenced by the request). -/
theorem C6_request_has_no_inline_config :
    (buildRequest "p" ["PHONE_NUMBER"]
        (buildPayload ["h"] [[Cell.str "x"]])).deid_config.field_transformations = none
    ∧ (buildRequest "p" ["PHONE_NUMBER"]
        (buildPayload ["h"] [[Cell.str "x"]])).deid_config.deidentify_template_name
      = some template_name := ⟨rfl, rfl⟩

/-- C6 amended: the code constructs an inline transformation configuration
(replacing detected spans in the selected fields with the fixed placeholder
`"################"`), but does not include it in the request; the request as
constructed supplies only the named deidentify-template reference. -/
theorem C6_template_only_inline_config_dead (project : String)
    (infoTypes deidFields : List String) (item : DlpTable) :
    (buildRequest project infoTypes item).deid_config
      = { deidentify_template_name := some template_name
          field_transformations := none }
    ∧ deidentify_config deidFields
      = { deidentify_template_name := none
          field_transformations :=
            some [{ replace_new_value := "################"
                    fields := deidFields }] } := ⟨rfl, rfl⟩

/-- C8: for every command-line invocation, the detector category list and the
field-selection list handed to the orchestrator are fixed constants (a
121-entry detector list and the fields `column_1..column_4`), identical
across all argument values — no flag influences them. -/
theorem C8_hardcoded_detector_and_field_lists (a : Args) :
    (mainCall a).info_types = info_types_const
    ∧ info_types_const.length = 121
    ∧ (mainCall a).deid_content_list
      = ["column_1", "column_2", "column_3", "column_4"]
    ∧ ∀ b : Args, (mainCall a).info_types = (mainCall b).info_types
        ∧ (mainCall a).deid_content_list = (mainCall b).deid_content_list :=
  ⟨rfl, rfl, rfl, fun _ => ⟨rfl, rfl⟩⟩

/-- C9: the staging table identifier is the fixed literal
`"project_id.dataset_id.table_id"`, independent of every parameter: the
query's destination (first event) and the row read-back (second event) use
this constant on every invocation and on every control-flow path. -/
theorem C9_staging_table_id_is_constant (args : Args) (schema : List String)
    (srcRows : List (List Cell)) (infoTypes : List String)
    (redact : DlpRequest → Except String DlpTable)
    (initialDest : List (List String)) :
    (runPipeline args schema srcRows infoTypes redact initialDest).trace.take 2
      = [Event.queryJob table_id, Event.listRows table_id]
    ∧ table_id = "project_id.dataset_id.table_id" := by
  refine ⟨?_, rfl⟩
  unfold runPipeline
  split
  · rfl
  · split
    · rfl
    · split
      · rfl
      · rfl

/-- C3: for every redaction response whose header list matches the payload's
(the service contract: identical shape), the header list used to build each
chunk's frame is identical, position by position, to the header order of the
original query result and of the payload sent for redaction — the frame takes
the response headers by position and never resorts them by name. -/
theorem C3_header_order_preserved (schema : List String)
    (srcRows : List (List Cell)) (resp : DlpTable)
    (hpreserve : resp.headers = (buildPayload schema srcRows).headers)
    (cs : Int) (i : Nat) :
    (chunkFrame resp cs i).columns = (buildPayload schema srcRows).headers
    ∧ (chunkFrame resp cs i).columns = schema := by
  exact ⟨hpreserve, hpreserve⟩

/-- C3 witness: the non-trivially permuted header list `["b", "a"]` survives
the round trip unchanged into the chunk frame. -/
theorem C3_header_order_preserved_witness :
    (buildPayload ["b", "a"] [[Cell.str "1", Cell.str "2"]]).headers
      = (buildPayload ["b", "a"] [[Cell.str "1", Cell.str "2"]]).headers
    ∧ (chunkFrame (buildPayload ["b", "a"] [[Cell.str "1", Cell.str "2"]]) 1 0).columns
      = ["b", "a"] :=
  ⟨rfl, (C3_header_order_preserved ["b", "a"] [[Cell.str "1", Cell.str "2"]]
    (buildPayload ["b", "a"] [[Cell.str "1", Cell.str "2"]]) rfl 1 0).2⟩

/-- C4: for a staged source table with `H` ordered columns and `R` rows (each
row having `H` cells), the payload built for the redaction request has
exactly `H` header entries in schema order, exactly `R` row entries, each row
exactly `H` cell values, and every cell is the string representation of the
source cell. -/
theorem C4_payload_shape (schema : List String) (srcRows : List (List Cell))
    (hlen : ∀ r ∈ srcRows, r.length = schema.length) :
    (buildPayload schema srcRows).headers = schema
    ∧ (buildPayload schema srcRows).rows.length = srcRows.length
    ∧ (∀ r ∈ (buildPayload schema srcRows).rows, r.length = schema.length)
    ∧ (buildPayload schema srcRows).rows = srcRows.map (fun r => r.map pyStr) := by
  refine ⟨rfl, by simp [buildPayload], ?_, rfl⟩
  intro r hr
  simp only [buildPayload, List.mem_map] at hr
  obtain ⟨s, hs, rfl⟩ := hr
  simp [hlen s hs]

/-- C4 witness: a 2-column, 1-row staging table with an integer and a NULL
cell yields a payload of 2 headers and 1 row of 2 stringified cells. -/
theorem C4_payload_shape_witness :
    (∀ r ∈ [[Cell.int 1, Cell.null]], r.length = (["a", "b"] : List String).length)
    ∧ (buildPayload ["a", "b"] [[Cell.int 1, Cell.null]]).rows
      = [[Cell.int 1, Cell.null]].map (fun r => r.map pyStr) :=
  ⟨by decide,
   (C4_payload_shape ["a", "b"] [[Cell.int 1, Cell.null]] (by decide)).2.2.2⟩

/-- C5: if the redaction call raises, the run aborts with that failure, the
destination table content is untouched, and the trace records no load
operation — no chunk load is attempted before the redaction call has
returned successfully. -/
theorem C5_redaction_failure_leaves_destination_untouched (args : Args)
    (schema : List String) (srcRows : List (List Cell))
    (infoTypes : List String) (e : String) (initialDest : List (List String)) :
    runPipeline args schema srcRows infoTypes (fun _ => Except.error e) initialDest
      = ⟨preTrace, initialDest, Except.error e⟩
    ∧ countLoads preTrace = 0 := ⟨rfl, rfl⟩

/-- C7: chunk loads are strictly sequential.  On the success path, for every
pair of consecutive chunks `i` and `i + 1`, the trace places the start of
load `i`, its completion, and the start of load `i + 1` at three consecutive
positions: load `i` completes before any work on chunk `i + 1` begins, and no
two loads are ever in flight at once. -/
theorem C7_chunk_loads_strictly_sequential (args : Args) (schema : List String)
    (srcRows : List (List Cell)) (infoTypes : List String)
    (redact : DlpRequest → Except String DlpTable)
    (initialDest : List (List String)) (resp : DlpTable) (cs : Int) (i : Nat)
    (hr : redact (buildRequest args.project infoTypes (buildPayload schema srcRows))
        = Except.ok resp)
    (hp : pythonInt args.chunksize = some cs) (hcs : cs ≠ 0)
    (hi : i + 1 < numIterations resp.rows.length cs) :
    ((runPipeline args schema srcRows infoTypes redact initialDest).trace)[3 + 2 * i]?
      = some (Event.loadStart i
          (outputTableId args.project args.dataset args.output_table))
    ∧ ((runPipeline args schema srcRows infoTypes redact initialDest).trace)[3 + 2 * i + 1]?
      = some (Event.loadComplete i)
    ∧ ((runPipeline args schema srcRows infoTypes redact initialDest).trace)[3 + 2 * i + 2]?
      = some (Event.loadStart (i + 1)
          (outputTableId args.project args.dataset args.output_table)) := by
  have hres := runPipeline_ok args schema srcRows infoTypes redact initialDest
    resp cs hr hp hcs
  rw [hres]
  have hpre : preTrace.length = 3 := rfl
  have hle : preTrace.length ≤ 3 + 2 * i := by omega
  have hle1 : preTrace.length ≤ 3 + 2 * i + 1 := by omega
  have hle2 : preTrace.length ≤ 3 + 2 * i + 2 := by omega
  refine ⟨?_, ?_, ?_⟩
  · rw [show ((⟨preTrace ++ loadTrace (outputTableId args.project args.dataset
        args.output_table) (numIterations resp.rows.length cs), _, _⟩ :
        PipeResult)).trace = preTrace ++ loadTrace (outputTableId args.project
        args.dataset args.output_table) (numIterations resp.rows.length cs) from rfl,
      List.getElem?_append_right hle, hpre, show 3 + 2 * i - 3 = 2 * i by omega]
    exact (loadTrace_getElem _ (by omega)).1
  · rw [show ((⟨preTrace ++ loadTrace (outputTableId args.project args.dataset
        args.output_table) (numIterations resp.rows.length cs), _, _⟩ :
        PipeResult)).trace = preTrace ++ loadTrace (outputTableId args.project
        args.dataset args.output_table) (numIterations resp.rows.length cs) from rfl,
      List.getElem?_append_right hle1, hpre,
      show 3 + 2 * i + 1 - 3 = 2 * i + 1 by omega]
    exact (loadTrace_getElem _ (by omega)).2
  · rw [show ((⟨preTrace ++ loadTrace (outputTableId args.project args.dataset
        args.output_table) (numIterations resp.rows.length cs), _, _⟩ :
        PipeResult)).trace = preTrace ++ loadTrace (outputTableId args.project
        args.dataset args.output_table) (numIterations resp.rows.length cs) from rfl,
      List.getElem?_append_right hle2, hpre,
      show 3 + 2 * i + 2 - 3 = 2 * (i + 1) by omega]
    exact (loadTrace_getElem _ (by omega)).1

/-- C7 witness: with three redacted rows and chunk size 1, load 0 starts at
trace position 3, right after the query, read-back and redaction events. -/
theorem C7_chunk_loads_strictly_sequential_witness :
    pythonInt "1" = some 1
    ∧ (1 : Int) ≠ 0
    ∧ 0 + 1 < numIterations
        (buildPayload ["h"] [[Cell.str "a"], [Cell.str "b"], [Cell.str "c"]]).rows.length 1
    ∧ ((runPipeline ⟨"p", "d", "src", "out", "1"⟩ ["h"]
        [[Cell.str "a"], [Cell.str "b"], [Cell.str "c"]] ["PHONE_NUMBER"]
        (fun r => Except.ok r.item) []).trace)[3 + 2 * 0]?
      = some (Event.loadStart 0 (outputTableId "p" "d" "out")) :=
  ⟨by decide, by decide, by decide,
   (C7_chunk_loads_strictly_sequential ⟨"p", "d", "src", "out", "1"⟩ ["h"]
     [[Cell.str "a"], [Cell.str "b"], [Cell.str "c"]] ["PHONE_NUMBER"]
     (fun r => Except.ok r.item) []
     (buildPayload ["h"] [[Cell.str "a"], [Cell.str "b"], [Cell.str "c"]]) 1 0
     rfl (by decide) (by decide) (by decide)).1⟩

/-- C10: when `chunksize` is non-numeric or parses to zero, a run whose
redaction call succeeds still fails — only after the payload has been
submitted and the response received (the trace ends with the redaction
event), with the destination untouched and no load attempted. -/
theorem C10_chunksize_parsed_only_after_submission (args : Args)
    (schema : List String) (srcRows : List (List Cell))
    (infoTypes : List String) (f : DlpRequest → DlpTable)
    (initialDest : List (List String))
    (hbad : pythonInt args.chunksize = none ∨ pythonInt args.chunksize = some 0) :
    (runPipeline args schema srcRows infoTypes
        (fun r => Except.ok (f r)) initialDest).trace = preTrace
    ∧ (runPipeline args schema srcRows infoTypes
        (fun r => Except.ok (f r)) initialDest).dest = initialDest
    ∧ countLoads (runPipeline args schema srcRows infoTypes
        (fun r => Except.ok (f r)) initialDest).trace = 0
    ∧ ∃ msg, (runPipeline args schema srcRows infoTypes
        (fun r => Except.ok (f r)) initialDest).outcome = Except.error msg := by
  rcases hbad with h | h
  · have hres : runPipeline args schema srcRows infoTypes
        (fun r => Except.ok (f r)) initialDest
        = ⟨preTrace, initialDest, Except.error "ValueError"⟩ := by
      unfold runPipeline
      rw [h]
    rw [hres]
    exact ⟨rfl, rfl, rfl, "ValueError", rfl⟩
  · have hres : runPipeline args schema srcRows infoTypes
        (fun r => Except.ok (f r)) initialDest
        = ⟨preTrace, initialDest, Except.error "ZeroDivisionError"⟩ := by
      unfold runPipeline
      rw [h]
      rfl
    rw [hres]
    exact ⟨rfl, rfl, rfl, "ZeroDivisionError", rfl⟩

/-- C10 witness: the non-numeric chunk size `"abc"` leaves the trace at the
three-event prefix — the redaction call already happened, no load did. -/
theorem C10_chunksize_parsed_only_after_submission_witness :
    (pythonInt "abc" = none ∨ pythonInt "abc" = some 0)
    ∧ (runPipeline ⟨"p", "d", "src", "out", "abc"⟩ ["h"] [[Cell.str "a"]]
        ["PHONE_NUMBER"] (fun r => Except.ok r.item) []).trace = preTrace :=
  ⟨Or.inl (by decide),
   (C10_chunksize_parsed_only_after_submission ⟨"p", "d", "src", "out", "abc"⟩
     ["h"] [[Cell.str "a"]] ["PHONE_NUMBER"] (fun r => r.item) []
     (Or.inl (by decide))).1⟩

end DataMaskingDlp
